import Mathlib

/- Verification of the binomial-tree option pricer and the auxiliary
   implied-volatility solver of the repository
   "Options, Futures and Other Derivatives - Python Implementation".
   The Python sources (notebook `13_Binomial_Trees.ipynb` and the
   Black-Scholes / implied-volatility cells of the chapter-15 document)
   are embedded shallowly: floats become real numbers, NumPy arrays
   become functions `ℕ → ℝ`, and the in-place backward-induction loop
   becomes iteration of a one-step operator. -/

/-- Outcome of calling the Python function `binomial_tree`: an ordinary
float return (`val`), the "print a message and bare `return`" path
(`printedNone`, which yields the value `None`), an unhandled `TypeError`
(from evaluating `1 + None`), or a `ZeroDivisionError`
(from `maturity / number_of_branch` with `number_of_branch = 0`). -/
inductive PyOutcome where
  | val (x : ℝ)
  | printedNone
  | typeError
  | zeroDivisionError

/-- Python truthiness of an `Optional[float]` argument:
`None` and `0.0` are falsy, every other float is truthy. -/
def optTruthy : Option ℝ → Prop
  | none => False
  | some x => x ≠ 0

/-- The lattice of the notebook: `tree[0,0] = spot`,
`tree[i,0] = tree[i-1,0] * u`, and `tree[i,j] = tree[i-1,j-1] * d` for
`1 ≤ j ≤ i`; every other entry keeps the `np.zeros` value `0`. -/
noncomputable def treeNode (spot u d : ℝ) : ℕ → ℕ → ℝ
  | 0, 0 => spot
  | 0, _ + 1 => 0
  | i + 1, 0 => treeNode spot u d i 0 * u
  | i + 1, j + 1 => if j + 1 ≤ i + 1 then treeNode spot u d i j * d else 0

/-- Embedding of Python's `str.lower()` (character-wise lowercasing). -/
def pyLower (s : String) : String :=
  ⟨s.data.map Char.toLower⟩

/-- Terminal-payoff assignment of the notebook: `call` and `put`
(compared after `option_type.lower()`) receive their payoffs, and any
other string leaves the `np.zeros` entry at `0`. -/
noncomputable def payoff (option_type : String) (strike s : ℝ) : ℝ :=
  if pyLower option_type = "call" then max 0 (s - strike)
  else if pyLower option_type = "put" then max 0 (strike - s)
  else 0

/-- One pass of the backward-induction loop of the notebook:
`value[j] = (p * value[j] + (1 - p) * value[j+1]) * exp(-risk_free * dt)`.
(Within one pass the update of `value[j]` reads the previous pass's
`value[j]` and `value[j+1]`, since index `j+1` has not yet been
overwritten when index `j` is processed; so the in-place loop computes
exactly this functional step.) -/
noncomputable def stepBI (p risk_free dt : ℝ) (v : ℕ → ℝ) : ℕ → ℝ :=
  fun j => (p * v j + (1 - p) * v (j + 1)) * Real.exp (-(risk_free * dt))

/-- Risk-neutral up probability of the notebook:
`p = (np.exp(risk_free * dt) - d) / (u - d)`. -/
noncomputable def pRN (risk_free dt u d : ℝ) : ℝ :=
  (Real.exp (risk_free * dt) - d) / (u - d)

/-- The computation of `binomial_tree` once the factors `u`, `d` are
fixed: build the triangular lattice, assign terminal payoffs, run
`number_of_branch` backward-induction passes, return `option_values[0]`. -/
noncomputable def priceCore (option_type : String) (spot strike risk_free dt : ℝ)
    (number_of_branch : ℕ) (u d : ℝ) : ℝ :=
  (stepBI (pRN risk_free dt u d) risk_free dt)^[number_of_branch]
    (fun j => payoff option_type strike (treeNode spot u d number_of_branch j)) 0

open Classical in
/-- Shallow embedding of the notebook function `binomial_tree`
(cell 13.11).  `u_d` is the module-level global consulted by the
input-validation line of the source — note that the source tests the
enclosing cell's global `u_d`, not the parameters `up` / `down`; in the
notebook `u_d` is `0.1` from before the function is defined and is
never reassigned.  On the rejection path the source prints a message
and executes a bare `return`, i.e. returns `None`. -/
noncomputable def binomial_tree (u_d : ℝ) (option_type : String)
    (spot strike risk_free maturity : ℝ) (number_of_branch : ℕ)
    (sigma up down : Option ℝ) : PyOutcome :=
  if (u_d = 0 ∧ ¬ optTruthy sigma) ∨ (u_d ≠ 0 ∧ optTruthy sigma) then
    PyOutcome.printedNone
  else if number_of_branch = 0 then PyOutcome.zeroDivisionError
  else if optTruthy sigma then
    PyOutcome.val (priceCore option_type spot strike risk_free
      (maturity / number_of_branch) number_of_branch
      (Real.exp (sigma.getD 0 * Real.sqrt (maturity / number_of_branch)))
      (Real.exp (-(sigma.getD 0 * Real.sqrt (maturity / number_of_branch)))))
  else
    match up, down with
    | some a, some b =>
        PyOutcome.val (priceCore option_type spot strike risk_free
          (maturity / number_of_branch) number_of_branch (1 + a) (1 - b))
    | _, _ => PyOutcome.typeError

/- ----------------------------------------------------------------
   The pricer contract of the specification (section 4.1).
   The source's `binomial_tree` has **no** `american` flag; the
   specification's contract and its American early-exercise branch are
   therefore modelled from the spec below and proved, for
   `american = false`, to coincide with the source computation.
   ---------------------------------------------------------------- -/

/-- `option_kind ∈ {call, put}` of the specification's contract. -/
inductive OptionKind where
  | call
  | put

/-- The two failure kinds of the specification's error-handling design. -/
inductive SpecErr where
  | invalidParameters
  | arithmeticDomainError

/-- Payoff formula of the specification: `max(0, node - strike)` for a
call and `max(0, strike - node)` for a put. -/
noncomputable def payoffK : OptionKind → ℝ → ℝ → ℝ
  | OptionKind.call, strike, s => max 0 (s - strike)
  | OptionKind.put, strike, s => max 0 (strike - s)

/-- The option-type strings the notebook uses for the two payoff kinds. -/
def kindStr : OptionKind → String
  | OptionKind.call => "call"
  | OptionKind.put => "put"

/-- Modelled from the spec: option value at a lattice node, by the
specification's backward induction.  `m` is the number of steps
remaining to maturity (the node's time index is `i = N - m`) and `j`
the number of down-moves so far, so the node's asset price is
`spot * u^(N-m-j) * d^j`.  At maturity (`m = 0`) the value is the
terminal payoff; otherwise it is the discounted risk-neutral
expectation of the two successor values, replaced — when `american`
is set, which the source lacks — by the larger of it and the immediate
exercise value. -/
noncomputable def specVal (kind : OptionKind) (strike spot u d p disc : ℝ)
    (american : Bool) (N : ℕ) : ℕ → ℕ → ℝ
  | 0, j => payoffK kind strike (spot * u ^ (N - j) * d ^ j)
  | m + 1, j =>
    let cont := (p * specVal kind strike spot u d p disc american N m j +
      (1 - p) * specVal kind strike spot u d p disc american N m (j + 1)) * disc
    if american then
      max cont (payoffK kind strike (spot * u ^ (N - (m + 1) - j) * d ^ j))
    else cont

open Classical in
/-- Modelled from the spec: the second half of the §4.1 contract, after
the factors `u` and `d` have been derived — guard against a degenerate
lattice (`u = d`) and an out-of-`[0,1]` risk-neutral probability with
`ArithmeticDomainError`, then value the option by the specification's
backward induction. -/
noncomputable def specPriceGo (kind : OptionKind) (spot strike risk_free_rate dt : ℝ)
    (steps : ℕ) (u d : ℝ) (american : Bool) : Except SpecErr ℝ :=
  if u = d then Except.error SpecErr.arithmeticDomainError
  else if pRN risk_free_rate dt u d < 0 ∨ 1 < pRN risk_free_rate dt u d then
    Except.error SpecErr.arithmeticDomainError
  else Except.ok (specVal kind strike spot u d (pRN risk_free_rate dt u d)
    (Real.exp (-(risk_free_rate * dt))) american steps steps 0)

open Classical in
/-- Modelled from the spec: the §4.1 contract
`price(option_kind, spot, strike, risk_free_rate, maturity, steps,
volatility, up, down, american)`.  It rejects non-positive
spot/strike/maturity and `steps = 0` and any volatility specification
other than exactly one of `volatility` or the pair `(up, down)` with
`InvalidParameters`, derives `Δt`, `u`, `d`, `p` as §4.1 prescribes,
fails with `ArithmeticDomainError` on a degenerate lattice (`u = d`)
or an out-of-`[0,1]` risk-neutral probability, and otherwise values
the option by the specification's backward induction (`specVal`),
honouring the `american` early-exercise flag the source lacks. -/
noncomputable def specPrice (kind : OptionKind) (spot strike risk_free_rate maturity : ℝ)
    (steps : ℕ) (volatility up down : Option ℝ) (american : Bool) : Except SpecErr ℝ :=
  if steps = 0 ∨ spot ≤ 0 ∨ strike ≤ 0 ∨ maturity ≤ 0 then
    Except.error SpecErr.invalidParameters
  else
    match volatility, up, down with
    | some sigma, none, none =>
        specPriceGo kind spot strike risk_free_rate (maturity / steps) steps
          (Real.exp (sigma * Real.sqrt (maturity / steps)))
          (Real.exp (-(sigma * Real.sqrt (maturity / steps)))) american
    | none, some a, some b =>
        specPriceGo kind spot strike risk_free_rate (maturity / steps) steps
          (1 + a) (1 - b) american
    | _, _, _ => Except.error SpecErr.invalidParameters


/- ----------------------------------------------------------------
   The American-put example cell of the notebook (spot 50, strike 52,
   risk-free 0.05, volatility 0.3, two one-year steps).  The cell
   computes the two branches by hand and rolls the put values back with
   `p * value_up + (1 - p) * value_down` — with no discount factor and
   no early-exercise comparison.
   ---------------------------------------------------------------- -/

noncomputable def cell13_u : ℝ := Real.exp (0.3 * Real.sqrt 1)

noncomputable def cell13_d : ℝ := Real.exp (-0.3 * Real.sqrt 1)

noncomputable def cell13_p : ℝ := (Real.exp (0.05 * 1) - cell13_d) / (cell13_u - cell13_d)

noncomputable def cell13_first_branch0 : ℝ := 50 * cell13_u

noncomputable def cell13_first_branch1 : ℝ := 50 * cell13_d

noncomputable def cell13_second_branch0 : ℝ := cell13_first_branch0 * cell13_u

noncomputable def cell13_second_branch1 : ℝ := cell13_first_branch0 * cell13_d

noncomputable def cell13_second_branch2 : ℝ := cell13_first_branch1 * cell13_u

noncomputable def cell13_second_branch3 : ℝ := cell13_first_branch1 * cell13_d

noncomputable def cell13_put_value_b2_0 : ℝ := max (52 - cell13_second_branch0) 0

noncomputable def cell13_put_value_b2_1 : ℝ := max (52 - cell13_second_branch1) 0

noncomputable def cell13_put_value_b2_2 : ℝ := max (52 - cell13_second_branch2) 0

noncomputable def cell13_put_value_b2_3 : ℝ := max (52 - cell13_second_branch3) 0

noncomputable def cell13_put_value_b1_0 : ℝ :=
  cell13_p * cell13_put_value_b2_0 + (1 - cell13_p) * cell13_put_value_b2_1

noncomputable def cell13_put_value_b1_1 : ℝ :=
  cell13_p * cell13_put_value_b2_2 + (1 - cell13_p) * cell13_put_value_b2_3

/-- The value the example cell prints as
`The put value at t0 is : 6.9025753364216245`. -/
noncomputable def cell13_put_value_b0 : ℝ :=
  cell13_p * cell13_put_value_b1_0 + (1 - cell13_p) * cell13_put_value_b1_1

/- ----------------------------------------------------------------
   The Black-Scholes-Merton cells of the chapter-15 document and the
   implied-volatility solver `implied_volatility_linear_interpolation`.
   ---------------------------------------------------------------- -/

/-- Cumulative distribution function of the standard normal
distribution (`scipy.stats.norm.cdf`). -/
noncomputable def norm_cdf (x : ℝ) : ℝ :=
  ∫ t in Set.Iic x, Real.exp (-(t ^ 2) / 2) / Real.sqrt (2 * Real.pi)

/-- The `Black_Scholes_Merton` function of the chapter-15 document:
returns the pair `(call_price, put_price)`. -/
noncomputable def Black_Scholes_Merton (spot strike maturity risk_free_rate volatility : ℝ) :
    ℝ × ℝ :=
  let d1 := (Real.log (spot / strike) + (risk_free_rate + 0.5 * volatility ^ 2) * maturity) /
    (volatility * Real.sqrt maturity)
  let d2 := d1 - volatility * Real.sqrt maturity
  (spot * norm_cdf d1 - strike * Real.exp (-(risk_free_rate * maturity)) * norm_cdf d2,
    strike * Real.exp (-(risk_free_rate * maturity)) * norm_cdf (-d2) -
      spot * norm_cdf (-d1))

/-- Outcome of calling the Python solver: an ordinary float return
`ok v printed`, where `printed` records whether the
`Convergence was not reached` message was printed to stdout just
before returning, or an unhandled `NameError` (a variable referenced
before assignment: `option_price_min` for an unrecognised `type`,
`vol_mid` when the loop body never ran). -/
inductive IVOutcome where
  | ok (v : ℝ) (printed : Bool)
  | nameError

/-- The `if type == "call" ... elif type == "put"` selection of the
solver; any other string leaves the selected price unassigned, which
surfaces as a `NameError` at its first use. -/
noncomputable def iv_select (type : String) (cp : ℝ × ℝ) : Option ℝ :=
  if type = "call" then some cp.1
  else if type = "put" then some cp.2
  else none

/-- Default `convergence_threshold` of the solver's signature. -/
noncomputable def iv_default_convergence_threshold : ℝ := 1e-6

/-- Default `max_iterations` of the solver's signature. -/
def iv_default_max_iterations : ℕ := 1000

open Classical in
/-- The `while iteration < max_iterations` loop of the solver, with the
remaining iteration budget as fuel.  `lastMid` is the value of the
Python variable `vol_mid` from the previous pass (`none` if the body
has not yet run).  When the budget is exhausted the source prints
`Convergence was not reached after {iteration}.` and returns `vol_mid`
— a `NameError` if the body never ran. -/
noncomputable def iv_loop (market_price : ℝ) (type : String)
    (spot strike maturity risk_free_rate threshold : ℝ)
    (vol_min vol_max option_price_min option_price_max : ℝ)
    (lastMid : Option ℝ) : ℕ → IVOutcome
  | 0 =>
    match lastMid with
    | some v => IVOutcome.ok v true
    | none => IVOutcome.nameError
  | fuel + 1 =>
    let vol_mid := vol_min + (market_price - option_price_min) * (vol_max - vol_min) /
      (option_price_max - option_price_min)
    match iv_select type (Black_Scholes_Merton spot strike maturity risk_free_rate vol_mid) with
    | none => IVOutcome.nameError
    | some option_price_mid =>
      if |option_price_mid - market_price| < threshold then IVOutcome.ok vol_mid false
      else if option_price_mid < market_price then
        iv_loop market_price type spot strike maturity risk_free_rate threshold
          vol_mid vol_max option_price_mid option_price_max (some vol_mid) fuel
      else
        iv_loop market_price type spot strike maturity risk_free_rate threshold
          vol_min vol_mid option_price_min option_price_mid (some vol_mid) fuel

/-- Shallow embedding of `implied_volatility_linear_interpolation`.
The Python defaults `convergence_threshold = 1e-6` and
`max_iterations = 1000` are the constants
`iv_default_convergence_threshold` and `iv_default_max_iterations`.
For an unrecognised `type` the Python initialisation leaves
`option_price_min` / `option_price_max` unassigned and the first use
raises `NameError`; here that is detected at selection time, which
yields the same observable outcome. -/
noncomputable def implied_volatility_linear_interpolation (market_price : ℝ) (type : String)
    (spot strike maturity risk_free_rate : ℝ)
    (convergence_threshold : ℝ) (max_iterations : ℕ) : IVOutcome :=
  let vol_min : ℝ := 0.00001
  let vol_max : ℝ := 5.0
  match iv_select type (Black_Scholes_Merton spot strike maturity risk_free_rate vol_min),
    iv_select type (Black_Scholes_Merton spot strike maturity risk_free_rate vol_max) with
  | some option_price_min, some option_price_max =>
    iv_loop market_price type spot strike maturity risk_free_rate convergence_threshold
      vol_min vol_max option_price_min option_price_max none max_iterations
  | _, _ => IVOutcome.nameError

/- ----------------------------------------------------------------
   Helper lemmas about the source computation.
   ---------------------------------------------------------------- -/

lemma pyLower_call : pyLower "call" = "call" := by decide

lemma pyLower_put : pyLower "put" = "put" := by decide

lemma put_ne_call : ("put" : String) ≠ "call" := by decide

/-- Closed form of the lattice: node `(i, j)` with `j ≤ i` holds
`spot * u^(i-j) * d^j` — the recombination invariant. -/
lemma treeNode_eq (spot u d : ℝ) :
    ∀ i j, j ≤ i → treeNode spot u d i j = spot * u ^ (i - j) * d ^ j := by
  intro i
  induction i with
  | zero =>
    intro j hj
    obtain rfl : j = 0 := Nat.le_zero.mp hj
    simp [treeNode]
  | succ i ih =>
    intro j hj
    match j with
    | 0 =>
      simp only [treeNode, Nat.sub_zero]
      rw [ih 0 (Nat.zero_le i)]
      simp only [Nat.sub_zero, pow_zero, pow_succ]
      ring
    | j + 1 =>
      have hj2 : j ≤ i := Nat.succ_le_succ_iff.mp hj
      simp only [treeNode]
      rw [if_pos (Nat.succ_le_succ hj2), ih j hj2, Nat.succ_sub_succ, pow_succ]
      ring

/-- The notebook's payoff for the strings `"call"` / `"put"` agrees with
the specification's payoff for the corresponding option kind. -/
lemma payoff_kindStr (k : OptionKind) (strike s : ℝ) :
    payoff (kindStr k) strike s = payoffK k strike s := by
  cases k
  · rw [payoff, kindStr, if_pos pyLower_call]
    rfl
  · rw [payoff, kindStr, if_neg, if_pos pyLower_put]
    · rfl
    · rw [pyLower_put]
      exact put_ne_call

lemma payoff_nonneg (option_type : String) (strike s : ℝ) :
    0 ≤ payoff option_type strike s := by
  rw [payoff]
  split_ifs <;> simp [le_max_left]

/-- The backward-induction pass preserves non-negativity of the value
array whenever the risk-neutral probability lies in `[0, 1]`. -/
lemma stepBI_iterate_nonneg (p r dt : ℝ) (hp0 : 0 ≤ p) (hp1 : p ≤ 1)
    (v : ℕ → ℝ) (hv : ∀ j, 0 ≤ v j) :
    ∀ m j, 0 ≤ (stepBI p r dt)^[m] v j := by
  intro m
  induction m with
  | zero => simpa using hv
  | succ m ih =>
    intro j
    rw [Function.iterate_succ_apply']
    simp only [stepBI]
    have h1 : 0 ≤ p * (stepBI p r dt)^[m] v j := mul_nonneg hp0 (ih j)
    have h2 : 0 ≤ (1 - p) * (stepBI p r dt)^[m] v (j + 1) :=
      mul_nonneg (by linarith) (ih (j + 1))
    exact mul_nonneg (by linarith) (Real.exp_nonneg _)

/-- Refinement: the source's in-place backward induction computes
exactly the specification's recursion (`specVal` with
`american = false`), node by node. -/
lemma stepBI_iterate_eq_specVal (k : OptionKind) (spot strike u d p r dt : ℝ) (N : ℕ) :
    ∀ m j, m + j ≤ N →
      (stepBI p r dt)^[m] (fun j2 => payoff (kindStr k) strike (treeNode spot u d N j2)) j
        = specVal k strike spot u d p (Real.exp (-(r * dt))) false N m j := by
  intro m
  induction m with
  | zero =>
    intro j hj
    simp only [Function.iterate_zero, id_eq]
    rw [treeNode_eq spot u d N j (by omega), payoff_kindStr]
    simp [specVal]
  | succ m ih =>
    intro j hj
    rw [Function.iterate_succ_apply']
    simp only [stepBI]
    rw [ih j (by omega), ih (j + 1) (by omega)]
    simp [specVal]

/-- The source pipeline after validation equals the specification's
backward induction with `american = false`. -/
lemma priceCore_eq_specVal (k : OptionKind) (spot strike r dt : ℝ) (N : ℕ) (u d : ℝ) :
    priceCore (kindStr k) spot strike r dt N u d
      = specVal k strike spot u d (pRN r dt u d) (Real.exp (-(r * dt))) false N N 0 := by
  rw [priceCore]
  exact stepBI_iterate_eq_specVal k spot strike u d (pRN r dt u d) r dt N N 0 (by omega)

lemma max_zero_sub_comm (a b : ℝ) : max 0 (a - b) - max 0 (b - a) = a - b := by
  rcases le_total a b with h | h
  · rw [max_eq_left (by linarith), max_eq_right (by linarith)]
    ring
  · rw [max_eq_right (by linarith), max_eq_left (by linarith)]
    ring

/-- Exact put-call parity of the backward induction, node by node:
the difference of the call and put values at a node `m` steps before
maturity is the `m`-fold discounted forward difference. -/
lemma specVal_parity (strike spot u d p disc : ℝ) (N : ℕ) :
    ∀ m j, m + j ≤ N →
      specVal OptionKind.call strike spot u d p disc false N m j
        - specVal OptionKind.put strike spot u d p disc false N m j
        = disc ^ m * ((p * u + (1 - p) * d) ^ m * (spot * u ^ (N - m - j) * d ^ j) - strike) := by
  intro m
  induction m with
  | zero =>
    intro j hj
    simp only [specVal, payoffK, Nat.sub_zero, pow_zero, one_mul]
    exact max_zero_sub_comm _ _
  | succ m ih =>
    intro j hj
    have h1 := ih j (by omega)
    have h2 := ih (j + 1) (by omega)
    rw [show N - m - j = (N - (m + 1) - j) + 1 from by omega] at h1
    rw [show N - m - (j + 1) = N - (m + 1) - j from by omega] at h2
    simp only [specVal, Bool.false_eq_true, if_false]
    linear_combination (p * disc) * h1 + ((1 - p) * disc) * h2

/-- With a risk-neutral probability in `[0, 1]` and a non-negative
discount factor, the American value dominates the European value at
every node. -/
lemma specVal_euro_le_amer (k : OptionKind) (strike spot u d p disc : ℝ)
    (hp0 : 0 ≤ p) (hp1 : p ≤ 1) (hdisc : 0 ≤ disc) (N : ℕ) :
    ∀ m j, specVal k strike spot u d p disc false N m j
      ≤ specVal k strike spot u d p disc true N m j := by
  intro m
  induction m with
  | zero => intro j; simp [specVal]
  | succ m ih =>
    intro j
    simp only [specVal, Bool.false_eq_true, if_false, if_true]
    refine le_trans ?_ (le_max_left _ _)
    have ha := mul_le_mul_of_nonneg_left (ih j) hp0
    have hb := mul_le_mul_of_nonneg_left (ih (j + 1)) (by linarith : (0:ℝ) ≤ 1 - p)
    have hc : p * specVal k strike spot u d p disc false N m j
        + (1 - p) * specVal k strike spot u d p disc false N m (j + 1)
        ≤ p * specVal k strike spot u d p disc true N m j
          + (1 - p) * specVal k strike spot u d p disc true N m (j + 1) := by
      linarith
    exact mul_le_mul_of_nonneg_right hc hdisc

/-- Validation behaviour of the source for a truthy `sigma`: with the
notebook's truthy global `u_d`, the call is rejected — the message is
printed and `None` is returned — whatever `up` and `down` are. -/
lemma binomial_tree_sigma_rejected (u_d : ℝ) (hud : u_d ≠ 0) (option_type : String)
    (spot strike risk_free maturity : ℝ) (N : ℕ) (s : ℝ) (hs : s ≠ 0)
    (up down : Option ℝ) :
    binomial_tree u_d option_type spot strike risk_free maturity N (some s) up down
      = PyOutcome.printedNone := by
  rw [binomial_tree.eq_def, if_pos (Or.inr ⟨hud, hs⟩)]

/-- Reduction of the source on its only value-producing path: `sigma`
falsy (here absent) and both `up` and `down` supplied. -/
lemma binomial_tree_updown (u_d : ℝ) (hud : u_d ≠ 0) (option_type : String)
    (spot strike risk_free maturity : ℝ) (N : ℕ) (hN : N ≠ 0) (a b : ℝ) :
    binomial_tree u_d option_type spot strike risk_free maturity N none (some a) (some b)
      = PyOutcome.val (priceCore option_type spot strike risk_free
          (maturity / N) N (1 + a) (1 - b)) := by
  rw [binomial_tree.eq_def, if_neg, if_neg hN, if_neg]
  · exact fun h => h
  · rintro (⟨h0, -⟩ | ⟨-, h⟩)
    · exact hud h0
    · exact h

/-- With `sigma` falsy and `up` or `down` missing, the source reaches
`u = 1 + up` / `d = 1 - down` with a `None` operand: `TypeError`. -/
lemma binomial_tree_missing_updown (u_d : ℝ) (hud : u_d ≠ 0) (option_type : String)
    (spot strike risk_free maturity : ℝ) (N : ℕ) (hN : N ≠ 0)
    (sigma up down : Option ℝ) (hsig : ¬ optTruthy sigma)
    (hmiss : up = none ∨ down = none) :
    binomial_tree u_d option_type spot strike risk_free maturity N sigma up down
      = PyOutcome.typeError := by
  rw [binomial_tree.eq_def, if_neg, if_neg hN, if_neg hsig]
  · match up, down, hmiss with
    | none, none, _ => rfl
    | none, some b, _ => rfl
    | some a, none, _ => rfl
  · rintro (⟨h0, -⟩ | ⟨-, h⟩)
    · exact hud h0
    · exact hsig h

lemma payoffK_nonneg (k : OptionKind) (strike s : ℝ) : 0 ≤ payoffK k strike s := by
  cases k <;> simp [payoffK]

/- ----------------------------------------------------------------
   Rational enclosures of the exponential values appearing in the
   American-put example (via the Taylor remainder bound).
   ---------------------------------------------------------------- -/

lemma exp_03_bounds : 1.3498587 ≤ Real.exp 0.3 ∧ Real.exp 0.3 ≤ 1.3498589 := by
  have hx : |(0.3:ℝ)| = 0.3 := abs_of_nonneg (by norm_num)
  have h := Real.exp_bound (x := (0.3:ℝ)) (by rw [hx]; norm_num) (n := 8) (by norm_num)
  rw [hx, abs_le] at h
  simp only [Finset.sum_range_succ, Finset.sum_range_zero, Nat.factorial] at h
  push_cast at h
  norm_num at h
  constructor <;> linarith [h.1, h.2]

lemma exp_neg03_bounds : 0.7408181 ≤ Real.exp (-0.3) ∧ Real.exp (-0.3) ≤ 0.7408184 := by
  have hx : |(-0.3:ℝ)| = 0.3 := by rw [abs_of_nonpos] <;> norm_num
  have h := Real.exp_bound (x := (-0.3:ℝ)) (by rw [hx]; norm_num) (n := 8) (by norm_num)
  rw [hx, abs_le] at h
  simp only [Finset.sum_range_succ, Finset.sum_range_zero, Nat.factorial] at h
  push_cast at h
  norm_num at h
  constructor <;> linarith [h.1, h.2]

lemma exp_005_bounds : 1.0512710 ≤ Real.exp 0.05 ∧ Real.exp 0.05 ≤ 1.0512712 := by
  have hx : |(0.05:ℝ)| = 0.05 := abs_of_nonneg (by norm_num)
  have h := Real.exp_bound (x := (0.05:ℝ)) (by rw [hx]; norm_num) (n := 5) (by norm_num)
  rw [hx, abs_le] at h
  simp only [Finset.sum_range_succ, Finset.sum_range_zero, Nat.factorial] at h
  push_cast at h
  norm_num at h
  constructor <;> linarith [h.1, h.2]

lemma exp_neg005_bounds : 0.9512294 ≤ Real.exp (-0.05) ∧ Real.exp (-0.05) ≤ 0.9512295 := by
  have hx : |(-0.05:ℝ)| = 0.05 := by rw [abs_of_nonpos] <;> norm_num
  have h := Real.exp_bound (x := (-0.05:ℝ)) (by rw [hx]; norm_num) (n := 5) (by norm_num)
  rw [hx, abs_le] at h
  simp only [Finset.sum_range_succ, Finset.sum_range_zero, Nat.factorial] at h
  push_cast at h
  norm_num at h
  constructor <;> linarith [h.1, h.2]

lemma exp_03_mul_exp_neg03 : Real.exp 0.3 * Real.exp (-0.3) = 1 := by
  rw [← Real.exp_add]
  norm_num

lemma cell13_u_eq : cell13_u = Real.exp 0.3 := by
  rw [cell13_u, Real.sqrt_one, mul_one]

lemma cell13_d_eq : cell13_d = Real.exp (-0.3) := by
  rw [cell13_d, Real.sqrt_one, mul_one]

lemma cell13_p_eq :
    cell13_p = (Real.exp 0.05 - Real.exp (-0.3)) / (Real.exp 0.3 - Real.exp (-0.3)) := by
  rw [cell13_p, cell13_u_eq, cell13_d_eq]
  norm_num

/-- Enclosure of the risk-neutral up probability
`(e^0.05 - e^(-0.3)) / (e^0.3 - e^(-0.3))` shared by the example cell
and the two-step lattice with `volatility = 0.3`, `Δt = 1` (printed by
the source as `Parameter p : 0.5097408651817704`). -/
lemma p_ratio_bounds :
    0.50974 ≤ (Real.exp 0.05 - Real.exp (-0.3)) / (Real.exp 0.3 - Real.exp (-0.3)) ∧
      (Real.exp 0.05 - Real.exp (-0.3)) / (Real.exp 0.3 - Real.exp (-0.3)) ≤ 0.509742 := by
  obtain ⟨hu1, hu2⟩ := exp_03_bounds
  obtain ⟨hd1, hd2⟩ := exp_neg03_bounds
  obtain ⟨ha1, ha2⟩ := exp_005_bounds
  have hpos : 0 < Real.exp 0.3 - Real.exp (-0.3) := by linarith
  constructor
  · rw [le_div_iff₀ hpos]
    linarith
  · rw [div_le_iff₀ hpos]
    linarith

lemma cell13_p_bounds : 0.50974 ≤ cell13_p ∧ cell13_p ≤ 0.509742 := by
  rw [cell13_p_eq]
  exact p_ratio_bounds

/- ----------------------------------------------------------------
   Claim C7.
   ---------------------------------------------------------------- -/

set_option maxHeartbeats 1600000 in
/-- C7, counterexample: at spot 50, strike 52, risk-free 0.05,
volatility 0.3, maturity 2, steps 2 (so `Δt = 2/2`,
`u = exp(0.3·√Δt)`, `d = exp(-0.3·√Δt)`,
`p = (exp(0.05·Δt) - d)/(u - d)`, discount `exp(-0.05·Δt)`), the
American put value computed by the algorithm the claim specifies —
backward induction **with** per-step discounting and **with** the
early-exercise comparison (`specVal` with `american = true`) — differs
from 6.9026 by more than the claimed tolerance 1e-3 (it is ≈ 7.43). -/
theorem C7_counterexample :
    1e-3 < |specVal OptionKind.put 52 50 (Real.exp (0.3 * Real.sqrt (2 / 2)))
      (Real.exp (-(0.3 * Real.sqrt (2 / 2))))
      ((Real.exp (0.05 * (2 / 2)) - Real.exp (-(0.3 * Real.sqrt (2 / 2)))) /
        (Real.exp (0.3 * Real.sqrt (2 / 2)) - Real.exp (-(0.3 * Real.sqrt (2 / 2)))))
      (Real.exp (-(0.05 * (2 / 2)))) true 2 2 0 - 6.9026| := by
  rw [show (2:ℝ)/2 = 1 by norm_num, Real.sqrt_one]
  simp only [mul_one]
  set u := Real.exp (0.3:ℝ) with hu
  set d := Real.exp (-0.3:ℝ) with hd
  set A := Real.exp (0.05:ℝ) with hA
  set D := Real.exp (-0.05:ℝ) with hD
  set p := (A - d) / (u - d) with hp
  simp only [specVal, payoffK, if_true]
  norm_num
  have hd2 : d ≤ 0.7408184 := by rw [hd]; exact exp_neg03_bounds.2
  have hD1 : (0.9512294:ℝ) ≤ D := by rw [hD]; exact exp_neg005_bounds.1
  have hp1 : (0.50974:ℝ) ≤ p := by rw [hp, hu, hd, hA]; exact p_ratio_bounds.1
  have hp2 : p ≤ 0.509742 := by rw [hp, hu, hd, hA]; exact p_ratio_bounds.2
  set V10 := (p * (0 ⊔ (52 - 50 * u ^ 2)) + (1 - p) * (0 ⊔ (52 - 50 * u * d))) * D ⊔
    (0 ⊔ (52 - 50 * u)) with hV10def
  set V11 := (p * (0 ⊔ (52 - 50 * u * d)) + (1 - p) * (0 ⊔ (52 - 50 * d ^ 2))) * D ⊔
    (0 ⊔ (52 - 50 * d)) with hV11def
  have hV10 : (0:ℝ) ≤ V10 := le_trans (le_max_left 0 _) (le_max_right _ _)
  have hV11 : 52 - 50 * d ≤ V11 := le_trans (le_max_right 0 _) (le_max_right _ _)
  have h1 : 0 ≤ p * V10 := mul_nonneg (by linarith) hV10
  have hVb : (14.95908:ℝ) ≤ V11 := by linarith
  have h2 : (0.490258:ℝ) * 14.95908 ≤ (1 - p) * V11 :=
    mul_le_mul (by linarith) hVb (by norm_num) (by linarith)
  have hsum : (0.490258:ℝ) * 14.95908 ≤ p * V10 + (1 - p) * V11 := by linarith
  have hfin : (0.490258:ℝ) * 14.95908 * 0.9512294 ≤ (p * V10 + (1 - p) * V11) * D :=
    mul_le_mul hsum hD1 (by norm_num) (by linarith)
  have hmax : (p * V10 + (1 - p) * V11) * D ≤ (p * V10 + (1 - p) * V11) * D ⊔ 2 :=
    le_max_left _ _
  refine lt_of_lt_of_le ?_ (le_abs_self _)
  linarith

set_option maxHeartbeats 1600000 in
/-- C7, amended: what the source's American-put example cell actually
computes at spot 50, strike 52, risk-free 0.05, volatility 0.3 and two
one-year steps — backward induction **without** per-step discounting
and **without** any early-exercise comparison — is within 1e-3 of
6.9026 (the cell prints 6.9025753364216245). -/
theorem C7_theorem : |cell13_put_value_b0 - 6.9026| ≤ 1e-3 := by
  obtain ⟨hp1, hp2⟩ := cell13_p_bounds
  rw [cell13_put_value_b0, cell13_put_value_b1_0, cell13_put_value_b1_1,
    cell13_put_value_b2_0, cell13_put_value_b2_1, cell13_put_value_b2_2, cell13_put_value_b2_3,
    cell13_second_branch0, cell13_second_branch1, cell13_second_branch2, cell13_second_branch3,
    cell13_first_branch0, cell13_first_branch1, cell13_u_eq, cell13_d_eq]
  set u := Real.exp (0.3:ℝ) with hu
  set d := Real.exp (-0.3:ℝ) with hd
  have hu1 : (1.3498587:ℝ) ≤ u := by rw [hu]; exact exp_03_bounds.1
  have hd1 : (0.7408181:ℝ) ≤ d := by rw [hd]; exact exp_neg03_bounds.1
  have hd2 : d ≤ 0.7408184 := by rw [hd]; exact exp_neg03_bounds.2
  have hud : u * d = 1 := by rw [hu, hd]; exact exp_03_mul_exp_neg03
  have hm0 : (52:ℝ) - 50 * u * u ≤ 0 := by nlinarith
  have hm3 : (0:ℝ) ≤ 52 - 50 * d * d := by nlinarith
  have e1 : (52:ℝ) - 50 * u * d = 2 := by rw [mul_assoc, hud]; norm_num
  have e2 : (52:ℝ) - 50 * d * u = 2 := by rw [mul_assoc, mul_comm d u, hud]; norm_num
  rw [e1, e2, max_eq_right hm0, max_eq_left hm3, max_eq_left (by norm_num : (0:ℝ) ≤ 2)]
  have hdd1 : (0.5488114:ℝ) ≤ d * d := by nlinarith
  have hdd2 : d * d ≤ 0.5488120 := by nlinarith
  have hq1 : (0.490258:ℝ) ≤ 1 - cell13_p := by linarith
  have hq2 : 1 - cell13_p ≤ 0.49026 := by linarith
  have hA1 : (0.50974:ℝ) * 0.490258 ≤ cell13_p * (1 - cell13_p) :=
    mul_le_mul hp1 hq1 (by norm_num) (by linarith)
  have hA2 : cell13_p * (1 - cell13_p) ≤ 0.509742 * 0.49026 :=
    mul_le_mul hp2 hq2 (by linarith) (by norm_num)
  have hQ1 : (0.490258:ℝ) * 0.490258 ≤ (1 - cell13_p) * (1 - cell13_p) :=
    mul_le_mul hq1 hq1 (by norm_num) (by linarith)
  have hQ2 : (1 - cell13_p) * (1 - cell13_p) ≤ 0.49026 * 0.49026 :=
    mul_le_mul hq2 hq2 (by linarith) (by norm_num)
  have hM1 : (24.55940:ℝ) ≤ 52 - 50 * (d * d) := by linarith
  have hM2 : 52 - 50 * (d * d) ≤ 24.55943 := by linarith
  have hB1 : (0.490258:ℝ) * 0.490258 * 24.55940 ≤
      (1 - cell13_p) * (1 - cell13_p) * (52 - 50 * (d * d)) :=
    mul_le_mul hQ1 hM1 (by norm_num) (by linarith)
  have hB2 : (1 - cell13_p) * (1 - cell13_p) * (52 - 50 * (d * d)) ≤
      0.49026 * 0.49026 * 24.55943 :=
    mul_le_mul hQ2 hM2 (by linarith) (by norm_num)
  rw [abs_le]
  constructor <;> nlinarith [hA1, hA2, hB1, hB2]

/- ----------------------------------------------------------------
   Remaining helper lemmas.
   ---------------------------------------------------------------- -/

lemma payoff_other (option_type : String) (h1 : pyLower option_type ≠ "call")
    (h2 : pyLower option_type ≠ "put") (strike s : ℝ) :
    payoff option_type strike s = 0 := by
  rw [payoff, if_neg h1, if_neg h2]

lemma stepBI_iterate_zero (p r dt : ℝ) (v : ℕ → ℝ) (hv : ∀ j, v j = 0) :
    ∀ m j, (stepBI p r dt)^[m] v j = 0 := by
  intro m
  induction m with
  | zero => simpa using hv
  | succ m ih =>
    intro j
    rw [Function.iterate_succ_apply']
    simp [stepBI, ih]

/-- The defining property of the risk-neutral probability: it makes the
one-step expected growth factor equal to `exp(risk_free · Δt)`. -/
lemma pRN_convex (risk_free dt u d : ℝ) (hud : u ≠ d) :
    pRN risk_free dt u d * u + (1 - pRN risk_free dt u d) * d
      = Real.exp (risk_free * dt) := by
  rw [pRN]
  field_simp [sub_ne_zero.mpr hud]
  ring

/-- Monotonicity through the guards of the spec's contract. -/
lemma specPriceGo_euro_le_amer (k : OptionKind) (spot strike r dt : ℝ) (steps : ℕ)
    (u d : ℝ) (e a : ℝ)
    (he : specPriceGo k spot strike r dt steps u d false = Except.ok e)
    (ha : specPriceGo k spot strike r dt steps u d true = Except.ok a) : e ≤ a := by
  rw [specPriceGo] at he ha
  by_cases h1 : u = d
  · rw [if_pos h1] at he
    simp at he
  · rw [if_neg h1] at he ha
    by_cases h2 : pRN r dt u d < 0 ∨ 1 < pRN r dt u d
    · rw [if_pos h2] at he
      simp at he
    · rw [if_neg h2] at he ha
      push_neg at h2
      simp only [Except.ok.injEq] at he ha
      subst he
      subst ha
      exact specVal_euro_le_amer k strike spot u d (pRN r dt u d)
        (Real.exp (-(r * dt))) h2.1 h2.2 (Real.exp_nonneg _) steps steps 0

/- ----------------------------------------------------------------
   Claim C1.
   ---------------------------------------------------------------- -/

/-- C1, counterexample: supplying **both** a (truthy) volatility and the
`(up, down)` pair does not raise any error — the source prints its
message and returns `None`, an ordinary None-like return value, which
the claim says is never produced. -/
theorem C1_counterexample :
    binomial_tree 0.1 "call" 100 100 (5/100) 1 2 (some 0.3) (some 0.1) (some 0.1)
      = PyOutcome.printedNone :=
  binomial_tree_sigma_rejected 0.1 (by norm_num) "call" 100 100 (5/100) 1 2 0.3
    (by norm_num) (some 0.1) (some 0.1)

/-- C1, amended: with the notebook's truthy global `u_d`, supplying both
a truthy `sigma` and `(up, down)` takes the print-and-return-`None`
path (an ordinary `None` return, not an `InvalidParameters` error),
while supplying neither passes the validation — which consults the
global `u_d` rather than the arguments — and then fails with an
unhandled `TypeError` at `u = 1 + up`; in both cases this happens
before any lattice is constructed. -/
theorem C1_theorem (option_type : String) (spot strike risk_free maturity : ℝ)
    (N : ℕ) (hN : N ≠ 0) (s a b : ℝ) (hs : s ≠ 0) :
    binomial_tree 0.1 option_type spot strike risk_free maturity N (some s) (some a) (some b)
      = PyOutcome.printedNone ∧
    binomial_tree 0.1 option_type spot strike risk_free maturity N none none none
      = PyOutcome.typeError :=
  ⟨binomial_tree_sigma_rejected 0.1 (by norm_num) option_type spot strike risk_free maturity
      N s hs (some a) (some b),
    binomial_tree_missing_updown 0.1 (by norm_num) option_type spot strike risk_free maturity
      N hN none none none (fun h => h) (Or.inl rfl)⟩

/-- C1, witness for the amended theorem at a concrete input. -/
theorem C1_witness :
    ((2:ℕ) ≠ 0 ∧ (0.3:ℝ) ≠ 0) ∧
    (binomial_tree 0.1 "call" 100 100 (5/100) 2 2 (some 0.3) (some 0.1) (some 0.1)
        = PyOutcome.printedNone ∧
      binomial_tree 0.1 "call" 100 100 (5/100) 2 2 none none none
        = PyOutcome.typeError) :=
  ⟨⟨by norm_num, by norm_num⟩,
    C1_theorem "call" 100 100 (5/100) 2 2 (by norm_num) 0.3 0.1 0.1 (by norm_num)⟩

/- ----------------------------------------------------------------
   Claim C2.
   ---------------------------------------------------------------- -/

/-- C2: the recombining-lattice invariant of the constructed tree — for
every `i` the pure-up node `(i, 0)` holds `spot·u^i`, the pure-down
node `(i, i)` holds `spot·d^i`, and every interior node `(i, j)` holds
`spot·u^(i-j)·d^j`, independent of the order of up and down moves. -/
theorem C2_theorem (spot u d : ℝ) (i j : ℕ) (hj : j ≤ i) :
    treeNode spot u d i 0 = spot * u ^ i ∧
    treeNode spot u d i i = spot * d ^ i ∧
    treeNode spot u d i j = spot * u ^ (i - j) * d ^ j := by
  refine ⟨?_, ?_, treeNode_eq spot u d i j hj⟩
  · have h := treeNode_eq spot u d i 0 (Nat.zero_le i)
    simpa using h
  · have h := treeNode_eq spot u d i i le_rfl
    simpa using h

/-- C2, witness at a concrete lattice. -/
theorem C2_witness :
    (1 ≤ 3) ∧
    (treeNode 50 2 (1/2) 3 0 = 50 * 2 ^ 3 ∧
      treeNode 50 2 (1/2) 3 3 = 50 * (1/2) ^ 3 ∧
      treeNode 50 2 (1/2) 3 1 = 50 * 2 ^ (3 - 1) * (1/2) ^ 1) :=
  ⟨by norm_num, C2_theorem 50 2 (1/2) 3 1 (by norm_num)⟩

/- ----------------------------------------------------------------
   Claim C3.
   ---------------------------------------------------------------- -/

/-- C3, counterexample: a valid invocation in the spec's sense —
exactly one volatility representation supplied, namely
`sigma = 0.3` alone — never derives `u = exp(σ√Δt)`,
`d = exp(-σ√Δt)`: because the validation tests the notebook's global
`u_d` (truthy `0.1`) instead of the `up`/`down` arguments, the call is
rejected with the print-and-return-`None` path and no parameters are
derived at all. -/
theorem C3_counterexample :
    binomial_tree 0.1 "call" 100 100 (5/100) 1 2 (some 0.3) none none
      = PyOutcome.printedNone :=
  binomial_tree_sigma_rejected 0.1 (by norm_num) "call" 100 100 (5/100) 1 2 0.3
    (by norm_num) none none

/-- C3, amended: every invocation with a truthy `sigma` is rejected (the
volatility branch of the derivation is unreachable in the notebook),
and on the reachable additive path the parameters are derived exactly
as specified: `Δt = maturity/steps`, `u = 1 + up`, `d = 1 - down`,
`p = (exp(risk_free·Δt) - d)/(u - d)`, discounting by
`exp(-risk_free·Δt)`, and the value is the specification's backward
induction over those parameters. -/
theorem C3_theorem (k : OptionKind) (spot strike risk_free maturity : ℝ)
    (N : ℕ) (hN : N ≠ 0) (s a b : ℝ) (hs : s ≠ 0) (up down : Option ℝ) :
    binomial_tree 0.1 (kindStr k) spot strike risk_free maturity N (some s) up down
      = PyOutcome.printedNone ∧
    binomial_tree 0.1 (kindStr k) spot strike risk_free maturity N none (some a) (some b)
      = PyOutcome.val (specVal k strike spot (1 + a) (1 - b)
          ((Real.exp (risk_free * (maturity / N)) - (1 - b)) / ((1 + a) - (1 - b)))
          (Real.exp (-(risk_free * (maturity / N)))) false N N 0) := by
  constructor
  · exact binomial_tree_sigma_rejected 0.1 (by norm_num) (kindStr k) spot strike risk_free
      maturity N s hs up down
  · rw [binomial_tree_updown 0.1 (by norm_num) (kindStr k) spot strike risk_free maturity
      N hN a b,
      priceCore_eq_specVal k spot strike risk_free (maturity / N) N (1 + a) (1 - b)]
    rfl

/-- C3, witness for the amended theorem at a concrete input. -/
theorem C3_witness :
    ((2:ℕ) ≠ 0 ∧ (0.3:ℝ) ≠ 0) ∧
    (binomial_tree 0.1 (kindStr OptionKind.call) 100 100 (8/100) 1 2 (some 0.3) none none
        = PyOutcome.printedNone ∧
      binomial_tree 0.1 (kindStr OptionKind.call) 100 100 (8/100) 1 2 none
          (some 0.1) (some 0.1)
        = PyOutcome.val (specVal OptionKind.call 100 100 (1 + 0.1) (1 - 0.1)
            ((Real.exp ((8:ℝ)/100 * ((1:ℝ) / (2:ℕ))) - (1 - 0.1)) / ((1 + 0.1) - (1 - 0.1)))
            (Real.exp (-((8:ℝ)/100 * ((1:ℝ) / (2:ℕ))))) false 2 2 0)) :=
  ⟨⟨by norm_num, by norm_num⟩,
    C3_theorem OptionKind.call 100 100 (8/100) 1 2 (by norm_num) 0.3 0.1 0.1 (by norm_num)
      none none⟩

/- ----------------------------------------------------------------
   Claim C4.
   ---------------------------------------------------------------- -/

/-- C4: whenever the specification's pricer returns a price for both
`american = false` and `american = true` on the same valid contract
parameters, the American price is at least the European price.
(The source has no `american` flag; the pricer here is modelled from
the spec's §4.1 contract.) -/
theorem C4_theorem (k : OptionKind) (spot strike risk_free_rate maturity : ℝ)
    (steps : ℕ) (volatility up down : Option ℝ) (e a : ℝ)
    (he : specPrice k spot strike risk_free_rate maturity steps volatility up down false
      = Except.ok e)
    (ha : specPrice k spot strike risk_free_rate maturity steps volatility up down true
      = Except.ok a) : e ≤ a := by
  rw [specPrice.eq_def] at he ha
  by_cases h0 : steps = 0 ∨ spot ≤ 0 ∨ strike ≤ 0 ∨ maturity ≤ 0
  · rw [if_pos h0] at he
    simp at he
  · rw [if_neg h0] at he ha
    cases volatility <;> cases up <;> cases down <;> simp only [] at he ha <;>
      first
        | (simp at he; done)
        | exact specPriceGo_euro_le_amer _ _ _ _ _ _ _ _ _ _ he ha

/-- C4, witness: an American and a European put priced on the same
one-step lattice (spot 100, strike 100, zero rate, `up = down = 0.1`);
both prices are 5 and the theorem yields `5 ≤ 5`. -/
theorem C4_witness :
    (specPrice OptionKind.put 100 100 0 1 1 none (some 0.1) (some 0.1) false
        = Except.ok 5 ∧
      specPrice OptionKind.put 100 100 0 1 1 none (some 0.1) (some 0.1) true
        = Except.ok 5) ∧
    (5:ℝ) ≤ 5 := by
  have he : specPrice OptionKind.put 100 100 0 1 1 none (some 0.1) (some 0.1) false
      = Except.ok 5 := by
    norm_num [specPrice.eq_def, specPriceGo, pRN, specVal, payoffK, Real.exp_zero]
  have ha : specPrice OptionKind.put 100 100 0 1 1 none (some 0.1) (some 0.1) true
      = Except.ok 5 := by
    norm_num [specPrice.eq_def, specPriceGo, pRN, specVal, payoffK, Real.exp_zero]
  exact ⟨⟨he, ha⟩, C4_theorem OptionKind.put 100 100 0 1 1 none (some 0.1) (some 0.1)
    5 5 he ha⟩

/- ----------------------------------------------------------------
   Claim C5.
   ---------------------------------------------------------------- -/

/-- C5: put-call parity.  For every parameter set on which
`binomial_tree` produces values (both `up` and `down` supplied, a
non-degenerate lattice `u ≠ d` and at least one step), the European
call and put values it returns satisfy
`call - put = spot - strike·exp(-risk_free·maturity)` — exactly in
real arithmetic, hence within the claimed 1e-6 tolerance. -/
theorem C5_theorem (spot strike risk_free maturity a b : ℝ) (N : ℕ) (hN : N ≠ 0)
    (hud : (1:ℝ) + a ≠ 1 - b) :
    ∃ c p, binomial_tree 0.1 "call" spot strike risk_free maturity N none (some a) (some b)
        = PyOutcome.val c ∧
      binomial_tree 0.1 "put" spot strike risk_free maturity N none (some a) (some b)
        = PyOutcome.val p ∧
      |c - p - (spot - strike * Real.exp (-(risk_free * maturity)))| ≤ 1e-6 := by
  refine ⟨_, _,
    binomial_tree_updown 0.1 (by norm_num) "call" spot strike risk_free maturity N hN a b,
    binomial_tree_updown 0.1 (by norm_num) "put" spot strike risk_free maturity N hN a b, ?_⟩
  have hc : priceCore "call" spot strike risk_free (maturity / N) N (1 + a) (1 - b)
      = specVal OptionKind.call strike spot (1 + a) (1 - b)
        (pRN risk_free (maturity / N) (1 + a) (1 - b))
        (Real.exp (-(risk_free * (maturity / N)))) false N N 0 :=
    priceCore_eq_specVal OptionKind.call spot strike risk_free (maturity / N) N (1 + a) (1 - b)
  have hp2 : priceCore "put" spot strike risk_free (maturity / N) N (1 + a) (1 - b)
      = specVal OptionKind.put strike spot (1 + a) (1 - b)
        (pRN risk_free (maturity / N) (1 + a) (1 - b))
        (Real.exp (-(risk_free * (maturity / N)))) false N N 0 :=
    priceCore_eq_specVal OptionKind.put spot strike risk_free (maturity / N) N (1 + a) (1 - b)
  rw [hc, hp2]
  have hpar := specVal_parity strike spot (1 + a) (1 - b)
    (pRN risk_free (maturity / N) (1 + a) (1 - b))
    (Real.exp (-(risk_free * (maturity / N)))) N N 0 (by omega)
  rw [hpar, pRN_convex risk_free (maturity / N) (1 + a) (1 - b) hud]
  simp only [Nat.sub_self, Nat.sub_zero, pow_zero, mul_one]
  rw [← Real.exp_nat_mul, ← Real.exp_nat_mul]
  have hNr : (N:ℝ) ≠ 0 := Nat.cast_ne_zero.mpr hN
  have hmul : (N:ℝ) * (risk_free * (maturity / N)) = risk_free * maturity := by
    field_simp
  have hmul2 : (N:ℝ) * -(risk_free * (maturity / N)) = -(risk_free * maturity) := by
    rw [mul_neg, hmul]
  rw [hmul, hmul2]
  have hprod : Real.exp (-(risk_free * maturity)) * Real.exp (risk_free * maturity) = 1 := by
    rw [← Real.exp_add, neg_add_cancel, Real.exp_zero]
  have key : Real.exp (-(risk_free * maturity)) * (Real.exp (risk_free * maturity) * spot
      - strike) - (spot - strike * Real.exp (-(risk_free * maturity))) = 0 := by
    linear_combination spot * hprod
  rw [abs_le]
  constructor <;> linarith [key]

/-- C5, witness at the notebook's own parity-check parameters
(cell 13.12: spot 100, strike 100, rate 0.08, maturity 1, two steps,
`up = down = 0.1`). -/
theorem C5_witness :
    ((2:ℕ) ≠ 0 ∧ (1:ℝ) + 0.1 ≠ 1 - 0.1) ∧
    (∃ c p, binomial_tree 0.1 "call" 100 100 (8/100) 1 2 none (some 0.1) (some 0.1)
        = PyOutcome.val c ∧
      binomial_tree 0.1 "put" 100 100 (8/100) 1 2 none (some 0.1) (some 0.1)
        = PyOutcome.val p ∧
      |c - p - (100 - 100 * Real.exp (-((8:ℝ)/100 * 1)))| ≤ 1e-6) :=
  ⟨⟨by norm_num, by norm_num⟩,
    C5_theorem 100 100 (8/100) 1 0.1 0.1 2 (by norm_num) (by norm_num)⟩

/- ----------------------------------------------------------------
   Claim C6.
   ---------------------------------------------------------------- -/

/-- C6, counterexample: an input the pricer accepts — additive
parameterization `up = 1`, `down = -0.5` (so `u = 2`, `d = 1.5`),
zero rate, one step, strike 160 — produces the **negative** price
`-40`: the derived risk-neutral probability is
`(1 - 1.5)/(2 - 1.5) = -1`, outside `[0, 1]`, and the unguarded
backward induction returns an ordinary negative value. -/
theorem C6_counterexample :
    binomial_tree 0.1 "call" 100 160 0 1 1 none (some 1) (some (-(1/2)))
      = PyOutcome.val (-40) ∧ ((-40:ℝ) < 0) := by
  constructor
  · rw [binomial_tree_updown 0.1 (by norm_num) "call" 100 160 0 1 1 one_ne_zero 1 (-(1/2))]
    congr 1
    norm_num [priceCore, stepBI, pRN, treeNode, payoff, pyLower_call, Real.exp_zero,
      Function.iterate_one]
  · norm_num

/-- C6, amended: the value returned by `binomial_tree` is non-negative
whenever the derived risk-neutral probability lies in `[0, 1]`; the
source never checks this, and accepted additive inputs that push the
probability outside `[0, 1]` can produce a negative price. -/
theorem C6_theorem (option_type : String) (spot strike risk_free maturity : ℝ)
    (N : ℕ) (hN : N ≠ 0) (a b : ℝ)
    (hp0 : 0 ≤ pRN risk_free (maturity / N) (1 + a) (1 - b))
    (hp1 : pRN risk_free (maturity / N) (1 + a) (1 - b) ≤ 1) :
    ∀ v, binomial_tree 0.1 option_type spot strike risk_free maturity N none
      (some a) (some b) = PyOutcome.val v → 0 ≤ v := by
  intro v hv
  rw [binomial_tree_updown 0.1 (by norm_num) option_type spot strike risk_free maturity
    N hN a b] at hv
  injection hv with hv2
  rw [← hv2, priceCore]
  exact stepBI_iterate_nonneg _ _ _ hp0 hp1 _ (fun j => payoff_nonneg _ _ _) N 0

/-- C6, witness for the amended theorem: `up = down = 0.1`, zero rate,
one step — the probability is `0.5 ∈ [0, 1]` and the price returned is
non-negative. -/
theorem C6_witness :
    ((1:ℕ) ≠ 0 ∧ 0 ≤ pRN 0 ((1:ℝ) / (1:ℕ)) (1 + 0.1) (1 - 0.1) ∧
      pRN 0 ((1:ℝ) / (1:ℕ)) (1 + 0.1) (1 - 0.1) ≤ 1) ∧
    0 ≤ priceCore "call" 100 100 0 ((1:ℝ) / (1:ℕ)) 1 (1 + 0.1) (1 - 0.1) := by
  have hp0 : (0:ℝ) ≤ pRN 0 ((1:ℝ) / (1:ℕ)) (1 + 0.1) (1 - 0.1) := by
    rw [pRN]
    norm_num [Real.exp_zero]
  have hp1 : pRN 0 ((1:ℝ) / (1:ℕ)) (1 + 0.1) (1 - 0.1) ≤ 1 := by
    rw [pRN]
    norm_num [Real.exp_zero]
  exact ⟨⟨by norm_num, hp0, hp1⟩,
    C6_theorem "call" 100 100 0 1 1 (by norm_num) 0.1 0.1 hp0 hp1
      (priceCore "call" 100 100 0 ((1:ℝ) / (1:ℕ)) 1 (1 + 0.1) (1 - 0.1))
      (binomial_tree_updown 0.1 (by norm_num) "call" 100 100 0 1 1 (by norm_num) 0.1 0.1)⟩

/- ----------------------------------------------------------------
   Claim C9.
   ---------------------------------------------------------------- -/

/-- C9: for an `option_type` whose lower-cased form is neither `call`
nor `put`, no terminal payoff is ever assigned, the value array stays
all zeros, and the function returns the ordinary numeric value `0.0`
— indistinguishable from a worthless option — instead of an error. -/
theorem C9_theorem (option_type : String) (h1 : pyLower option_type ≠ "call")
    (h2 : pyLower option_type ≠ "put") (spot strike risk_free maturity : ℝ)
    (N : ℕ) (hN : N ≠ 0) (a b : ℝ) :
    binomial_tree 0.1 option_type spot strike risk_free maturity N none (some a) (some b)
      = PyOutcome.val 0 := by
  rw [binomial_tree_updown 0.1 (by norm_num) option_type spot strike risk_free maturity
    N hN a b]
  congr 1
  rw [priceCore]
  exact stepBI_iterate_zero _ _ _ _ (fun j => payoff_other option_type h1 h2 _ _) N 0

/-- C9, witness: option type `"Digital"`. -/
theorem C9_witness :
    (pyLower "Digital" ≠ "call" ∧ pyLower "Digital" ≠ "put" ∧ (2:ℕ) ≠ 0) ∧
    binomial_tree 0.1 "Digital" 100 100 (8/100) 1 2 none (some 0.1) (some 0.1)
      = PyOutcome.val 0 :=
  ⟨⟨by decide, by decide, by norm_num⟩,
    C9_theorem "Digital" (by decide) (by decide) 100 100 (8/100) 1 2 (by norm_num) 0.1 0.1⟩

/- ----------------------------------------------------------------
   Claim C10.
   ---------------------------------------------------------------- -/

/-- C10: `sigma = 0.0` with `up`/`down` absent is falsy, so it passes
the input validation (the global `u_d` is truthy and `u_d and sigma`
is falsy), reaches the `else` branch, and fails with an unhandled
`TypeError` at `u = 1 + up` with `up = None` — neither the specified
`InvalidParameters` outcome nor a zero-volatility price. -/
theorem C10_theorem (option_type : String) (spot strike risk_free maturity : ℝ)
    (N : ℕ) (hN : N ≠ 0) :
    binomial_tree 0.1 option_type spot strike risk_free maturity N (some 0) none none
      = PyOutcome.typeError :=
  binomial_tree_missing_updown 0.1 (by norm_num) option_type spot strike risk_free maturity
    N hN (some 0) none none (by simp [optTruthy]) (Or.inl rfl)

/-- C10, witness at a concrete input. -/
theorem C10_witness :
    ((2:ℕ) ≠ 0) ∧
    binomial_tree 0.1 "put" 100 100 (5/100) 1 2 (some 0) none none
      = PyOutcome.typeError :=
  ⟨by norm_num, C10_theorem "put" 100 100 (5/100) 1 2 (by norm_num)⟩

/- ----------------------------------------------------------------
   Claim C8.
   ---------------------------------------------------------------- -/

lemma iv_select_some (type : String) (ht : type = "call" ∨ type = "put") (cp : ℝ × ℝ) :
    iv_select type cp = some (if type = "call" then cp.1 else cp.2) := by
  rcases ht with h | h <;> rw [h] <;> simp [iv_select, put_ne_call]

/-- The solver's loop, run with a recognised option type and any
remaining budget, always produces an ordinary float return (provided
`vol_mid` has been assigned at least once); the `printed` flag is
`false` exactly on the in-loop convergent return, in which case the
returned volatility reproduces the market price within the threshold. -/
lemma iv_loop_total (market : ℝ) (type : String) (ht : type = "call" ∨ type = "put")
    (spot strike maturity r thr : ℝ) :
    ∀ fuel vmin vmax pmin pmax (last : Option ℝ), (last = none → fuel ≠ 0) →
      ∃ v b, iv_loop market type spot strike maturity r thr vmin vmax pmin pmax last fuel
        = IVOutcome.ok v b ∧
        (b = false → ∀ pm, iv_select type (Black_Scholes_Merton spot strike maturity r v)
          = some pm → |pm - market| < thr) := by
  intro fuel
  induction fuel with
  | zero =>
    intro vmin vmax pmin pmax last hlast
    match last with
    | none => exact absurd rfl (fun h => hlast h rfl)
    | some w =>
      refine ⟨w, true, by simp [iv_loop], ?_⟩
      intro hb
      exact absurd hb (by simp)
  | succ fuel ih =>
    intro vmin vmax pmin pmax last hlast
    rw [iv_loop]
    rw [iv_select_some type ht]
    simp only []
    by_cases hconv : |(if type = "call" then
        (Black_Scholes_Merton spot strike maturity r
          (vmin + (market - pmin) * (vmax - vmin) / (pmax - pmin))).1
      else (Black_Scholes_Merton spot strike maturity r
          (vmin + (market - pmin) * (vmax - vmin) / (pmax - pmin))).2) - market| < thr
    · rw [if_pos hconv]
      refine ⟨_, false, rfl, ?_⟩
      intro _ pm hpm
      rw [iv_select_some type ht] at hpm
      injection hpm with hpm2
      rw [← hpm2]
      exact hconv
    · rw [if_neg hconv]
      by_cases hlt : (if type = "call" then
          (Black_Scholes_Merton spot strike maturity r
            (vmin + (market - pmin) * (vmax - vmin) / (pmax - pmin))).1
        else (Black_Scholes_Merton spot strike maturity r
            (vmin + (market - pmin) * (vmax - vmin) / (pmax - pmin))).2) < market
      · rw [if_pos hlt]
        exact ih _ _ _ _ _ (fun h => absurd h (by simp))
      · rw [if_neg hlt]
        exact ih _ _ _ _ _ (fun h => absurd h (by simp))

/-- C8, counterexample: the claim says that whenever the solver fails
to converge within the iteration limit it returns the best estimate
with a caller-visible non-convergence indicator rather than raising;
but with `max_iterations = 0` (a limit within which no input can
converge) the loop body never runs, `return vol_mid` references an
unassigned variable, and the call raises an unhandled `NameError`. -/
theorem C8_counterexample :
    implied_volatility_linear_interpolation 2.5 "call" 15 13 (3/12) (5/100) 1e-6 0
      = IVOutcome.nameError := by
  rw [implied_volatility_linear_interpolation]
  rw [iv_select_some "call" (Or.inl rfl), iv_select_some "call" (Or.inl rfl)]
  simp [iv_loop]

/-- C8, amended: the solver's defaults are `convergence_threshold =
1e-6` and `max_iterations = 1000`; for a recognised option type and a
positive iteration budget it never raises — it returns an ordinary
float, flagged `printed = true` when the budget was exhausted (the
source prints `Convergence was not reached` to stdout and returns the
last interpolated estimate, the returned float itself carrying no
indicator), and flagged `printed = false` only when the returned
volatility reproduces the market price within the threshold. -/
theorem C8_theorem :
    (iv_default_convergence_threshold = 1e-6 ∧ iv_default_max_iterations = 1000) ∧
    ∀ (market : ℝ) (type : String) (spot strike maturity r thr : ℝ) (fuel : ℕ),
      (type = "call" ∨ type = "put") → fuel ≠ 0 →
      ∃ v b, implied_volatility_linear_interpolation market type spot strike maturity r
          thr fuel = IVOutcome.ok v b ∧
        (b = false → ∀ pm, iv_select type (Black_Scholes_Merton spot strike maturity r v)
          = some pm → |pm - market| < thr) := by
  refine ⟨⟨rfl, rfl⟩, ?_⟩
  intro market type spot strike maturity r thr fuel ht hfuel
  rw [implied_volatility_linear_interpolation]
  rw [iv_select_some type ht, iv_select_some type ht]
  simp only []
  exact iv_loop_total market type ht spot strike maturity r thr fuel _ _ _ _ none
    (fun _ => hfuel)

/-- C8, witness: the amended theorem applied at the source's own
example call (market price 2.5, call, spot 15, strike 13, maturity
3/12, rate 0.05) with the default threshold and iteration budget. -/
theorem C8_witness :
    (("call" = "call" ∨ ("call" : String) = "put") ∧ iv_default_max_iterations ≠ 0) ∧
    ∃ v b, implied_volatility_linear_interpolation 2.5 "call" 15 13 (3/12) (5/100)
        iv_default_convergence_threshold iv_default_max_iterations = IVOutcome.ok v b ∧
      (b = false → ∀ pm, iv_select "call" (Black_Scholes_Merton 15 13 (3/12) (5/100) v)
        = some pm → |pm - 2.5| < iv_default_convergence_threshold) :=
  ⟨⟨Or.inl rfl, by norm_num [iv_default_max_iterations]⟩,
    C8_theorem.2 2.5 "call" 15 13 (3/12) (5/100) iv_default_convergence_threshold
      iv_default_max_iterations (Or.inl rfl) (by norm_num [iv_default_max_iterations])⟩
